import Mathlib

/-!
Verification development for the nativeMcpClientServer repository.

The repository contains two variants of the tool-orchestration host:
`src/mcp-host.py` (shared `messages_history` on the `MCPHost` instance,
deterministic trigger-phrase tool selection, SSE streaming invocation) and
`src/host/mcp-host.py` (per-connection `message_history` local to
`handle_client`, delegated tool selection through the completion backend,
plain GET invocation).  The definitions below are shallow embeddings of the
relevant Python functions; external library calls (`json.loads`,
`json.dumps`, the HTTP transport, the completion backend) are modelled by
executable Lean functions or by oracle parameters, as noted at each
definition.
-/

namespace McpHost

/-! ### Python string primitives

These model the Python `str` operations used by the host: `in` (substring
test), slicing `s[n:]`, `startswith`, `strip`, `lower`, `upper`,
`"\n".join`.  Python strings are sequences of code points, which matches
`List Char`. -/

/-- Characters removed by Python `str.strip()`: space, tab, newline,
carriage return, vertical tab, form feed. -/
def pySpace (c : Char) : Bool :=
  c = ' ' ∨ c = '\t' ∨ c = '\n' ∨ c = '\r' ∨ c = Char.ofNat 11 ∨ c = Char.ofNat 12

/-- Python `str.strip()`. -/
def strStrip (s : String) : String :=
  String.mk (((s.data.dropWhile pySpace).reverse.dropWhile pySpace).reverse)

/-- Python `str.lower()` (ASCII range, which covers all strings in play). -/
def strLower (s : String) : String :=
  String.mk (s.data.map Char.toLower)

/-- Python `str.upper()` (ASCII range). -/
def strUpper (s : String) : String :=
  String.mk (s.data.map Char.toUpper)

/-- Python slicing `s[n:]` (by code points). -/
def strDrop (s : String) (n : Nat) : String :=
  String.mk (s.data.drop n)

/-- Python `s.startswith(p)`. -/
def strStartsWith (s p : String) : Bool :=
  p.data.isPrefixOf s.data

/-- Infix (substring) test on character lists: some drop of `ys` has `xs`
as a prefix. -/
def listIsInfix (xs ys : List Char) : Bool :=
  (List.range (ys.length + 1)).any (fun i => xs.isPrefixOf (ys.drop i))

/-- Python `needle in hay` on strings: substring containment. -/
def isSubstr (needle hay : String) : Bool :=
  listIsInfix needle.data hay.data

/-- Python `s.endswith(t)` shape used in statements about reply suffixes. -/
def strEndsWith (s t : String) : Bool :=
  t.data.isSuffixOf s.data

/-- Python `"\n".join(lines)`. -/
def joinLines (sep : String) : List String → String
  | [] => ""
  | [x] => x
  | x :: y :: rest => x ++ sep ++ joinLines sep (y :: rest)

/-! ### JSON values

Model of the values produced by Python `json.loads`: `None`, booleans,
numbers, strings, lists, dicts.  Numbers are restricted to integers — the
only numerals appearing anywhere in this system; float payloads are outside
the model. -/

inductive JsonVal where
  | jnull : JsonVal
  | jbool (b : Bool) : JsonVal
  | jnum (n : Int) : JsonVal
  | jstr (s : String) : JsonVal
  | jarr (xs : List JsonVal) : JsonVal
  | jobj (kvs : List (String × JsonVal)) : JsonVal
deriving Repr

/-- Python truthiness of a decoded JSON value, as tested by
`if products_data:` in src/mcp-host.py line 196: `None`, `False`, `0`,
empty string, empty list and empty dict are falsy. -/
def truthy : JsonVal → Bool
  | .jnull => false
  | .jbool b => b
  | .jnum n => n ≠ 0
  | .jstr s => !s.data.isEmpty
  | .jarr xs => !xs.isEmpty
  | .jobj kvs => !kvs.isEmpty

/-- Python `d.get(k, dflt)`: on a dict, the value at `k` or the default;
on any non-dict value an `AttributeError` is raised, modelled as `none`. -/
def pyGetDefault (v : JsonVal) (k : String) (dflt : JsonVal) : Option JsonVal :=
  match v with
  | .jobj kvs => some ((((kvs.find? (fun p => p.1 = k)).map Prod.snd)).getD dflt)
  | _ => none

/-- Python `v == s` for a string literal `s`: true exactly when `v` is an
equal string (Python equality between a str and any non-str JSON value is
False). -/
def jsonEqStr (v : JsonVal) (s : String) : Bool :=
  match v with
  | .jstr t => t = s
  | _ => false

/-- Python `k in v` for a string key: key test on dicts, membership on
lists, substring on strings; a `TypeError` on the remaining shapes,
modelled as `none`. -/
def pyContains (k : String) (v : JsonVal) : Option Bool :=
  match v with
  | .jobj kvs => some (kvs.any (fun p => p.1 = k))
  | .jarr xs => some (xs.any (fun x => jsonEqStr x k))
  | .jstr s => some (isSubstr k s)
  | _ => none

/-- Python `v[k]` for a string key: dict lookup (assumed present by the
callers, which test membership first); a `TypeError` on any other shape,
modelled as `none`. -/
def pyGetItem (v : JsonVal) (k : String) : Option JsonVal :=
  match v with
  | .jobj kvs => (kvs.find? (fun p => p.1 = k)).map Prod.snd
  | _ => none

/-! ### JSON text parsing

Model of Python `json.loads` restricted to integer numerals (no float
payload occurs anywhere in this system).  The parser is a single
fuel-indexed function so that it is structurally recursive and reduces
inside the kernel. -/

/-- Opening brace character, kept out of literals. -/
def lbraceChar : Char := Char.ofNat 123

/-- Closing brace character, kept out of literals. -/
def rbraceChar : Char := Char.ofNat 125

/-- JSON whitespace skipping. -/
def skipWs : List Char → List Char
  | c :: cs => if c = ' ' ∨ c = '\t' ∨ c = '\n' ∨ c = '\r' then skipWs cs else c :: cs
  | [] => []

/-- Expects the literal characters as a prefix and returns the remainder. -/
def expectLit : List Char → List Char → Option (List Char)
  | [], cs => some cs
  | _ :: _, [] => none
  | l :: ls, c :: cs => if c = l then expectLit ls cs else none

/-- Value of one hexadecimal digit. -/
def hexDigitVal (c : Char) : Option Nat :=
  if c.isDigit then some (c.toNat - 48)
  else if 'a' ≤ c ∧ c ≤ 'f' then some (c.toNat - 87)
  else if 'A' ≤ c ∧ c ≤ 'F' then some (c.toNat - 55)
  else none

/-- Body of a JSON string literal after the opening quote: returns the
decoded characters and the remainder after the closing quote.  Handles the
JSON escapes and rejects raw control characters, as `json.loads` does. -/
def parseStrBody : Nat → List Char → Option (List Char × List Char)
  | 0, _ => none
  | Nat.succ fuel, cs =>
    match cs with
    | [] => none
    | c :: rest =>
      if c = '"' then some ([], rest)
      else if c = '\\' then
        match rest with
        | [] => none
        | e :: r2 =>
          if e = '"' ∨ e = '\\' ∨ e = '/' then
            (parseStrBody fuel r2).map (fun p => (e :: p.1, p.2))
          else if e = 'n' then (parseStrBody fuel r2).map (fun p => ('\n' :: p.1, p.2))
          else if e = 't' then (parseStrBody fuel r2).map (fun p => ('\t' :: p.1, p.2))
          else if e = 'r' then (parseStrBody fuel r2).map (fun p => ('\r' :: p.1, p.2))
          else if e = 'b' then (parseStrBody fuel r2).map (fun p => (Char.ofNat 8 :: p.1, p.2))
          else if e = 'f' then (parseStrBody fuel r2).map (fun p => (Char.ofNat 12 :: p.1, p.2))
          else if e = 'u' then
            match r2 with
            | h1 :: h2 :: h3 :: h4 :: r3 =>
              match hexDigitVal h1, hexDigitVal h2, hexDigitVal h3, hexDigitVal h4 with
              | some a, some b, some c2, some d =>
                (parseStrBody fuel r3).map
                  (fun p => (Char.ofNat (((a * 16 + b) * 16 + c2) * 16 + d) :: p.1, p.2))
              | _, _, _, _ => none
            | _ => none
          else none
      else if c.toNat < 32 then none
      else (parseStrBody fuel rest).map (fun p => (c :: p.1, p.2))

/-- Accumulates decimal digits into a natural number. -/
def digitsToNat : List Char → Nat → Nat
  | [], acc => acc
  | c :: cs, acc => digitsToNat cs (acc * 10 + (c.toNat - 48))

/-- JSON number parsing, restricted to integers: an optional minus sign and
digits without a redundant leading zero; a following `.`, `e` or `E`
(a float numeral) is outside the model and rejected. -/
def parseNum (cs : List Char) : Option (Int × List Char) :=
  let neg : Bool := cs.head? = some '-'
  let cs1 := if neg then cs.tail else cs
  let ds := cs1.takeWhile Char.isDigit
  let rest := cs1.dropWhile Char.isDigit
  if ds.isEmpty then none
  else if 1 < ds.length ∧ ds.head? = some '0' then none
  else
    match rest.head? with
    | some c =>
      if c = '.' ∨ c = 'e' ∨ c = 'E' then none
      else some ((if neg then -(digitsToNat ds 0 : Int) else (digitsToNat ds 0 : Int)), rest)
    | none => some ((if neg then -(digitsToNat ds 0 : Int) else (digitsToNat ds 0 : Int)), rest)

/-- Inserts an object member parsed ahead of `rest`: a duplicate key keeps
its first position but the later value wins, matching Python dict
construction in `json.loads`. -/
def insertKey (k : String) (v : JsonVal) (rest : List (String × JsonVal)) :
    List (String × JsonVal) :=
  match rest.find? (fun p => p.1 = k) with
  | some p => (k, p.2) :: rest.filter (fun q => !(q.1 = k : Bool))
  | none => (k, v) :: rest

/-- Parsing mode: a single value, the elements of an array after `[`, or
the members of an object after the opening brace. -/
inductive PMode where
  | pval : PMode
  | pelems : PMode
  | pmembers : PMode

/-- Result of one parsing step, tagged by mode. -/
inductive PRes where
  | rval (v : JsonVal) : PRes
  | relems (xs : List JsonVal) : PRes
  | rmembers (ms : List (String × JsonVal)) : PRes

/-- Recursive-descent JSON parser over characters, fuel-indexed. -/
def parseStep : Nat → PMode → List Char → Option (PRes × List Char)
  | 0, _, _ => none
  | Nat.succ fuel, .pval, cs0 =>
    match skipWs cs0 with
    | [] => none
    | c :: rest =>
      if c = 'n' then (expectLit ['u', 'l', 'l'] rest).map (fun r => (PRes.rval .jnull, r))
      else if c = 't' then
        (expectLit ['r', 'u', 'e'] rest).map (fun r => (PRes.rval (.jbool true), r))
      else if c = 'f' then
        (expectLit ['a', 'l', 's', 'e'] rest).map (fun r => (PRes.rval (.jbool false), r))
      else if c = '"' then
        (parseStrBody (rest.length + 1) rest).map
          (fun p => (PRes.rval (.jstr (String.mk p.1)), p.2))
      else if c = '[' then
        let r2 := skipWs rest
        if r2.head? = some ']' then some (PRes.rval (.jarr []), r2.tail)
        else
          match parseStep fuel .pelems r2 with
          | some (.relems xs, r3) => some (PRes.rval (.jarr xs), r3)
          | _ => none
      else if c = lbraceChar then
        let r2 := skipWs rest
        if r2.head? = some rbraceChar then some (PRes.rval (.jobj []), r2.tail)
        else
          match parseStep fuel .pmembers r2 with
          | some (.rmembers ms, r3) => some (PRes.rval (.jobj ms), r3)
          | _ => none
      else if c = '-' ∨ c.isDigit then
        (parseNum (c :: rest)).map (fun p => (PRes.rval (.jnum p.1), p.2))
      else none
  | Nat.succ fuel, .pelems, cs =>
    match parseStep fuel .pval cs with
    | some (.rval v, r) =>
      (match skipWs r with
       | ',' :: r2 =>
         match parseStep fuel .pelems r2 with
         | some (.relems xs, r3) => some (PRes.relems (v :: xs), r3)
         | _ => none
       | ']' :: r2 => some (PRes.relems [v], r2)
       | _ => none)
    | _ => none
  | Nat.succ fuel, .pmembers, cs =>
    match skipWs cs with
    | '"' :: r =>
      (match parseStrBody (r.length + 1) r with
       | some (kcs, r2) =>
         (match skipWs r2 with
          | ':' :: r3 =>
            (match parseStep fuel .pval r3 with
             | some (.rval v, r4) =>
               let r5 := skipWs r4
               if r5.head? = some ',' then
                 match parseStep fuel .pmembers r5.tail with
                 | some (.rmembers ms, r6) =>
                   some (PRes.rmembers (insertKey (String.mk kcs) v ms), r6)
                 | _ => none
               else if r5.head? = some rbraceChar then
                 some (PRes.rmembers [(String.mk kcs, v)], r5.tail)
               else none
             | _ => none)
          | _ => none)
       | none => none)
    | _ => none

/-- Model of Python `json.loads`: parse one value and require only
whitespace after it. -/
def parseJson (s : String) : Option JsonVal :=
  match parseStep (2 * s.data.length + 2) .pval s.data with
  | some (.rval v, rest) => if skipWs rest = [] then some v else none
  | _ => none

/-! ### Python value rendering

`pyReprFuel`/`pyStr` model Python `repr`/`str` on decoded JSON values, used
by the f-string interpolation in the product formatter.  `json.dumps`
remains an oracle parameter (`dumps`) wherever the code calls it, since no
claim depends on its exact output. -/

/-- Single-quote character as a string, for Python `repr` of strings. -/
def sq : String := String.singleton (Char.ofNat 39)

/-- Opening brace as a string. -/
def lbraceStr : String := String.singleton lbraceChar

/-- Closing brace as a string. -/
def rbraceStr : String := String.singleton rbraceChar

mutual

/-- Python `repr` of a decoded JSON value. -/
def pyRepr : JsonVal → String
  | .jnull => "None"
  | .jbool true => "True"
  | .jbool false => "False"
  | .jnum n => toString n
  | .jstr s => sq ++ s ++ sq
  | .jarr xs => "[" ++ pyReprList xs ++ "]"
  | .jobj kvs => lbraceStr ++ pyReprObj kvs ++ rbraceStr

/-- Comma-separated `repr` of list elements. -/
def pyReprList : List JsonVal → String
  | [] => ""
  | [x] => pyRepr x
  | x :: y :: rest => pyRepr x ++ ", " ++ pyReprList (y :: rest)

/-- Comma-separated `repr` of dict members. -/
def pyReprObj : List (String × JsonVal) → String
  | [] => ""
  | [p] => sq ++ p.1 ++ sq ++ ": " ++ pyRepr p.2
  | p :: q :: rest => sq ++ p.1 ++ sq ++ ": " ++ pyRepr p.2 ++ ", " ++ pyReprObj (q :: rest)

end

/-- Python `str` of a decoded JSON value, as produced by f-string
interpolation: strings verbatim, containers and scalars by `repr`. -/
def pyStr : JsonVal → String
  | .jstr s => s
  | v => pyRepr v

/-! ### StreamDecoder and invocation (src/mcp-host.py lines 176-228)

The SSE loop of `check_and_use_tools` consumes the response line-by-line:
a `data: ` line is JSON-parsed — a `result` key overwrites the accumulated
payload, an `error` key is logged, a parse failure is logged and skipped —
and an `event: close` line stops the loop.  `sseDecodeAux` returns the
sequence of events alongside the final payload; the outer `none` models a
Python exception escaping the loop (caught by the enclosing handler, which
returns `None`). -/

inductive SseEvent where
  | result (v : JsonVal) : SseEvent
  | errEvent (v : JsonVal) : SseEvent
  | decodeError (line : String) : SseEvent
  | close : SseEvent

/-- SSE line loop of src/mcp-host.py lines 178-194, with the running
`products_data` accumulator. -/
def sseDecodeAux : List String → Option JsonVal → Option (List SseEvent × Option JsonVal)
  | [], acc => some ([], acc)
  | l :: ls, acc =>
    if strStartsWith l "data: " then
      match parseJson (strDrop l 6) with
      | none => (sseDecodeAux ls acc).map (fun p => (SseEvent.decodeError l :: p.1, p.2))
      | some v =>
        match pyContains "result" v with
        | none => none
        | some true =>
          match pyGetItem v "result" with
          | none => none
          | some r => (sseDecodeAux ls (some r)).map (fun p => (SseEvent.result r :: p.1, p.2))
        | some false =>
          match pyContains "error" v with
          | none => none
          | some true =>
            match pyGetItem v "error" with
            | none => none
            | some e => (sseDecodeAux ls acc).map (fun p => (SseEvent.errEvent e :: p.1, p.2))
          | some false => sseDecodeAux ls acc
    else if strStartsWith l "event: close" then some ([SseEvent.close], acc)
    else sseDecodeAux ls acc

/-- Last `result` payload among the events, defaulting to the initial
accumulator: the specification-side description of what the loop returns. -/
def lastResultD : List SseEvent → Option JsonVal → Option JsonVal
  | [], acc => acc
  | SseEvent.result r :: rest, _ => lastResultD rest (some r)
  | _ :: rest, acc => lastResultD rest acc

/-! ### Tool-result formatting (src/mcp-host.py lines 196-217) -/

/-- Header of the product reply. -/
def productsHeader : String := "Here are the products I found:\n\n"

/-- Enumeration of the first products, one item per iteration of the loop
at lines 202-206: `f"i. product_name"` plus an optional `" by brand_name"`,
with `'Unknown'` defaults.  `none` models the `AttributeError` raised when
an item is not a dict (caught by the enclosing handler). -/
def formatItems : List JsonVal → Nat → Option String
  | [], _ => some ""
  | p :: rest, i =>
    match pyGetDefault p "product_name" (.jstr "Unknown") with
    | none => none
    | some nameV =>
      match pyContains "brand_name" p with
      | none => none
      | some hasBrand =>
        let brandPart :=
          if hasBrand then
            match pyGetDefault p "brand_name" (.jstr "Unknown") with
            | some bv => " by " ++ pyStr bv
            | none => ""
          else ""
        match formatItems rest (i + 1) with
        | none => none
        | some tail => some (toString i ++ ". " ++ pyStr nameV ++ brandPart ++ "\n\n" ++ tail)

/-- Reply construction from the accumulated payload, lines 196-217: the
`if products_data:` truthiness guard, the list branch with its cap of 10,
the `(Showing 10 of M products)` suffix, the (unreachable) empty-list
message, and the fallback dump of non-list payloads through `json.dumps`
(the `dumps` oracle). -/
def formatToolReply (dumps : JsonVal → String) (pd : Option JsonVal) : Option String :=
  match pd with
  | none => none
  | some v =>
    if truthy v then
      match v with
      | .jarr ps =>
        (match formatItems (ps.take 10) 1 with
         | none => none
         | some body =>
           if 10 < ps.length then
             some (productsHeader ++ body ++ "(Showing 10 of " ++ toString ps.length ++
               " products)")
           else if ps.length = 0 then some "No products were found."
           else some (productsHeader ++ body))
      | _ => some (productsHeader ++ "Found product data: " ++ dumps v)
    else none

/-! ### Deterministic selection and the legacy invocation pipeline
(src/mcp-host.py lines 147-228)

The legacy registry is the list of raw JSON dicts returned by the
providers; the selector tests three trigger phrases against the lowered,
stripped utterance and scans the registry for the first entry whose
`name` is `get_products`. -/

/-- Trigger test of src/mcp-host.py line 152 over
`message.lower().strip()`. -/
def triggersMatch (message : String) : Bool :=
  let m := strStrip (strLower message)
  isSubstr "get products" m || isSubstr "fetch products" m || isSubstr "show products" m

/-- Registry scan of src/mcp-host.py lines 156-160: the first tool dict
whose `name` equals `get_products`.  The outer `none` models an
`AttributeError` from `tool.get` on a non-dict entry (caught by the
enclosing handler); `some none` is the not-found case of line 162. -/
def findGetProducts : List JsonVal → Option (Option JsonVal)
  | [] => some none
  | t :: ts =>
    match pyGetDefault t "name" .jnull with
    | none => none
    | some v => if jsonEqStr v "get_products" then some (some t) else findGetProducts ts

/-- Deterministic tool selection: which descriptor lines 147-164 settle on
for an utterance, `none` when no trigger phrase matches or the registry has
no `get_products` entry. -/
def selectDeterministic (tools : List JsonVal) (message : String) : Option JsonVal :=
  if triggersMatch message then
    match findGetProducts tools with
    | some (some t) => some t
    | _ => none
  else none

/-- Whole `check_and_use_tools` of src/mcp-host.py lines 147-228, with the
HTTP transport abstracted: `status` is the response status and
`streamLines` the SSE lines it delivers.  Every failure path of the
function (no trigger, missing tool, non-200 status, an exception, a falsy
payload) returns `none`, upon which the caller falls through to the
completion backend. -/
def checkAndUseTools (dumps : JsonVal → String) (tools : List JsonVal) (status : Nat)
    (streamLines : List String) (message : String) : Option String :=
  if triggersMatch message then
    match findGetProducts tools with
    | none => none
    | some none => none
    | some (some _) =>
      if status = 200 then
        match sseDecodeAux streamLines none with
        | none => none
        | some p => formatToolReply dumps p.2
      else none
  else none

/-! ### Session handling

`Msg` is one history entry (`{"role": ..., "content": ...}`). -/

structure Msg where
  role : String
  content : String
deriving Repr, DecidableEq

/-- Legacy user-message turn, src/mcp-host.py lines 90-132: append the user
message to `messages_history` (an attribute of the single `MCPHost`
instance), try the tools, else send the whole accumulated history to the
completion backend (`llm` oracle, covering the Ollama and Gemini calls) and
append its reply.  Returns the updated shared history and the reply text
sent to the requesting client. -/
def legacyUserTurn (checkTools : String → Option String) (llm : List Msg → String)
    (history : List Msg) (content : String) : List Msg × String :=
  let h1 := history ++ [⟨"user", content⟩]
  match checkTools content with
  | some r => (h1 ++ [⟨"assistant", r⟩], r)
  | none =>
    let resp := llm h1
    (h1 ++ [⟨"assistant", resp⟩], resp)

/-- Inbound frames of the host-variant message loop
(src/host/mcp-host.py lines 138-209). -/
inductive Frame where
  | userMessage (content : String) : Frame
  | clearHistory : Frame
  | other (t : String) : Frame

/-- Outbound frames produced by the loop. -/
inductive OutFrame where
  | llmResponse (userMsg response : String) : OutFrame
  | historyCleared : OutFrame
deriving Repr, DecidableEq

/-- External calls a turn performs, in order: the tool check and,
on the no-tool path, the completion request with its prompt. -/
inductive CallRec where
  | toolCheck (message : String) : CallRec
  | completion (prompt : String) : CallRec
deriving Repr, DecidableEq

/-- Role-tagged line `f"role.upper(): content"` of
src/host/mcp-host.py line 181. -/
def fmtLine (m : Msg) : String := strUpper m.role ++ ": " ++ m.content

/-- Completion prompt of src/host/mcp-host.py lines 180-183:
`"\n".join` over the role-tagged lines of `message_history[-5:]`. -/
def formatPrompt (h : List Msg) : String :=
  joinLines "\n" ((h.drop (h.length - 5)).map fmtLine)

/-- One iteration of the host-variant message loop
(src/host/mcp-host.py lines 138-209) over the connection-local
`message_history`: blank user content is skipped (lines 144-146), a tool
reply or a completion reply is appended and sent (lines 150-199),
`clear_history` resets the history (lines 201-206), an unknown type is
logged and ignored (lines 208-209).  Returns the new history, the frames
sent, and the external calls made. -/
def handleFrame (checkTools : String → Option String) (llm : String → String)
    (history : List Msg) : Frame → List Msg × List OutFrame × List CallRec
  | .userMessage c =>
    let content := strStrip c
    if content = "" then (history, [], [])
    else
      let h1 := history ++ [⟨"user", content⟩]
      match checkTools content with
      | some r =>
        (h1 ++ [⟨"assistant", r⟩], [.llmResponse content r], [.toolCheck content])
      | none =>
        let prompt := formatPrompt h1
        let resp := llm prompt
        (h1 ++ [⟨"assistant", resp⟩], [.llmResponse content resp],
          [.toolCheck content, .completion prompt])
  | .clearHistory => ([], [.historyCleared], [])
  | .other _ => (history, [], [])

/-- Folds a sequence of frames of one connection through `handleFrame`. -/
def runSession (ct : String → Option String) (llm : String → String) :
    List Msg → List Frame → List Msg
  | h, [] => h
  | h, f :: fs => runSession ct llm (handleFrame ct llm h f).1 fs

/-- Two concurrently connected host-variant clients: the state is the pair
of their connection-local histories, and a frame addressed to one client is
handled with that client's history alone. -/
def twoClientStep (ct : String → Option String) (llm : String → String)
    (st : List Msg × List Msg) (toFirst : Bool) (f : Frame) :
    (List Msg × List Msg) × List OutFrame :=
  if toFirst then
    (((handleFrame ct llm st.1 f).1, st.2), (handleFrame ct llm st.1 f).2.1)
  else
    ((st.1, (handleFrame ct llm st.2 f).1), (handleFrame ct llm st.2 f).2.1)

/-- Folds an interleaved frame sequence (each tagged with its client)
through the two-client system. -/
def runTwo (ct : String → Option String) (llm : String → String) :
    (List Msg × List Msg) → List (Bool × Frame) → List Msg × List Msg
  | st, [] => st
  | st, (b, f) :: fs => runTwo ct llm (twoClientStep ct llm st b f).1 fs

/-! ### Host-variant discovery, delegated selection and invocation errors
(src/host/mcp-host.py) -/

/-- Descriptor built by `discover_tools` (src/host/mcp-host.py lines
77-103): name, description and invocation URL; the `parameters` field is
always the empty mapping and is omitted. -/
structure ToolDesc where
  name : String
  description : String
  url : String
deriving Repr, DecidableEq

/-- One entry of `config.yaml`, as read by `load_tool_servers`. -/
structure ServerCfg where
  name : String
  url : String
  path : String
  description : String
deriving Repr, DecidableEq

/-- Descriptors one provider contributes, src/host/mcp-host.py lines
74-118: a static descriptor keyed on a substring of the server name, else
a dynamic `GET /tools` query abstracted by the `fetch` oracle (`none`
models a failure or non-200 status, contributing zero descriptors). -/
def serverContribution (fetch : String → Option (List ToolDesc)) (s : ServerCfg) :
    List ToolDesc :=
  if isSubstr "eagle" (strLower s.name) then
    [⟨"get_eagle_feeds", "Get information about eagle live feeds and webcams",
      s.url ++ s.path⟩]
  else if isSubstr "product" (strLower s.name) then
    [⟨"get_products", "Get information about available products", s.url ++ s.path⟩]
  else if isSubstr "analytics" (strLower s.name) then
    [⟨"get_analytics", "Get analytics data and metrics", s.url ++ s.path⟩]
  else (fetch s.url).getD []

/-- `discover_tools` of src/host/mcp-host.py lines 65-120: every provider
appends its contribution to the running `tools` list; nothing is
deduplicated. -/
def discoverTools (fetch : String → Option (List ToolDesc)) (servers : List ServerCfg) :
    List ToolDesc :=
  servers.foldl (fun acc s => acc ++ serverContribution fetch s) []

/-- Name lookup over the registry in insertion order, as performed by the
registry scans (src/mcp-host.py lines 156-160 with an exact name test):
the first descriptor with the given name. -/
def lookupTool (ts : List ToolDesc) (n : String) : Option ToolDesc :=
  ts.find? (fun t => t.name = n)

/-- Count of descriptors carrying a name. -/
def countName (ts : List ToolDesc) (n : String) : Nat :=
  ts.countP (fun t => t.name = n)

/-- Substring predicate of the delegated selector, src/host/mcp-host.py
line 266: `tool["name"].lower() in tool_decision`. -/
def nameAppears (d : String) (t : ToolDesc) : Bool :=
  isSubstr (strLower t.name) d

/-- Delegated tool selection, src/host/mcp-host.py lines 249-274: the
completion backend's decision text is stripped and lowered; the literal
`none` or empty text selects nothing, else the first registered descriptor
whose lowered name is a substring of the decision is selected, and an
unmatched decision selects nothing (lines 271-274). -/
def selectDelegated (tools : List ToolDesc) (decisionText : String) : Option ToolDesc :=
  let d := strLower (strStrip decisionText)
  if d = "none" ∨ d = "" then none
  else tools.find? (nameAppears d)

/-- Exceptions `httpx` raises during the tool request of
src/host/mcp-host.py lines 286-326.  In httpx, `TimeoutException` is a
subclass of `TransportError`, itself a subclass of `RequestError`;
`ConnectError` likewise. -/
inductive PyExc where
  | timeoutException : PyExc
  | connectError : PyExc
  | otherRequestError : PyExc
  | otherException (msg : String) : PyExc
deriving Repr, DecidableEq

/-- Membership in the `httpx.RequestError` class (all transport and
timeout exceptions are request errors). -/
def isRequestError : PyExc → Bool
  | .timeoutException => true
  | .connectError => true
  | .otherRequestError => true
  | .otherException _ => false

/-- Membership in the `httpx.TimeoutException` class. -/
def isTimeoutException : PyExc → Bool
  | .timeoutException => true
  | _ => false

/-- Python `str(e)` for the generic handler. -/
def excText : PyExc → String
  | .otherException m => m
  | _ => ""

/-- Reply produced by the `except` clauses of src/host/mcp-host.py lines
316-326 for an exception raised during the tool request.  Python tries the
clauses in source order, so the `httpx.RequestError` clause at line 316 is
tested before the `httpx.TimeoutException` clause at line 320. -/
def toolErrorReply (toolName : String) (e : PyExc) : String :=
  if isRequestError e then
    "I tried to use the " ++ toolName ++
      " tool, but encountered a connection error. Please check if the service is available and try again."
  else if isTimeoutException e then
    "The " ++ toolName ++ " tool is taking too long to respond. Please try again later."
  else
    "I encountered an error while using the " ++ toolName ++ " tool: " ++ excText e ++
      ". Please try again later."

/-! ### Concrete fixtures for witnesses and counterexamples -/

/-- Apostrophe as a string. -/
def apos : String := String.singleton (Char.ofNat 39)

/-- Utterance of the no-match selector example. -/
def weatherUtterance : String := "what" ++ apos ++ "s the weather"

/-- Registry entry for `get_products` as the product server declares it. -/
def gpDict : JsonVal := .jobj [("name", .jstr "get_products")]

/-- Singleton legacy registry holding `get_products`. -/
def toolsGP : List JsonVal := [gpDict]

/-- Tool oracle that never matches. -/
def ctNone : String → Option String := fun _ => none

/-- Completion oracle answering with the length of the history it was
sent, to observe which messages reach the backend. -/
def llmLen : List Msg → String := fun ms => toString ms.length

/-- Completion oracle with a constant reply, to observe that a turn fell
through to the completion path. -/
def llmFallback : List Msg → String := fun _ => "FALLBACK"

/-- One product item of the 12-item example payload. -/
def gpItem (i : Nat) : JsonVal := .jobj [("product_name", .jstr ("P" ++ toString i))]

/-- The 12-item example payload of the spec's end-to-end scenario. -/
def items12 : List JsonVal := (List.range 12).map gpItem

/-- Provider configs that both carry `product` in their names. -/
def srvProductA : ServerCfg := ⟨"product-one", "http://a", "/run", ""⟩

/-- Second product-named provider with a different endpoint. -/
def srvProductB : ServerCfg := ⟨"product-two", "http://b", "/run", ""⟩

/-- Discovery oracle for a deployment where dynamic queries all fail. -/
def fetchNone : String → Option (List ToolDesc) := fun _ => none

/-- Host-variant product descriptor of `srvProductA`. -/
def prodToolH : ToolDesc :=
  ⟨"get_products", "Get information about available products", "http://a/run"⟩

/-- Whether a decoded JSON value is a dict. -/
def isObjB : JsonVal → Bool
  | .jobj _ => true
  | _ => false

/-- Identity completion oracle over prompts. -/
def llmId : String → String := fun s => s

/-- Six-message history fixture. -/
def hist6 : List Msg :=
  [⟨"user", "a"⟩, ⟨"assistant", "b"⟩, ⟨"user", "c"⟩, ⟨"assistant", "d"⟩,
   ⟨"user", "e"⟩, ⟨"assistant", "f"⟩]

/-! ## Helper lemmas -/

/-- Sanity of the `json.loads` model on an object with a `result` key. -/
theorem parseJson_result_one :
    parseJson "\x7b\"result\": 1\x7d" = some (.jobj [("result", .jnum 1)]) := rfl

/-- Sanity of the `json.loads` model on a malformed line. -/
theorem parseJson_not_json : parseJson "not-json" = none := rfl

/-- Scanning an appended list finds the match of the first part. -/
theorem find?_append_some {α : Type} (p : α → Bool) {l1 : List α} (l2 : List α) {t : α}
    (h : l1.find? p = some t) : (l1 ++ l2).find? p = some t := by
  induction l1 with
  | nil => simp [List.find?] at h
  | cons a l ih =>
    by_cases hp : p a = true
    · rw [List.find?_cons_of_pos _ hp] at h
      simpa [List.find?_cons_of_pos _ hp] using h
    · rw [List.find?_cons_of_neg _ hp] at h
      simpa [List.find?_cons_of_neg _ hp] using ih h

/-- Scanning an appended list continues into the second part when the
first has no match. -/
theorem find?_append_none {α : Type} (p : α → Bool) {l1 : List α} (l2 : List α)
    (h : l1.find? p = none) : (l1 ++ l2).find? p = l2.find? p := by
  induction l1 with
  | nil => simp
  | cons a l ih =>
    by_cases hp : p a = true
    · rw [List.find?_cons_of_pos _ hp] at h; cases h
    · rw [List.find?_cons_of_neg _ hp] at h
      simpa [List.find?_cons_of_neg _ hp] using ih h

/-- The first element satisfying the predicate, after a block of
non-matching elements, is the one found. -/
theorem find?_first {α : Type} (p : α → Bool) (ts1 : List α) (t : α) (ts2 : List α)
    (hp : p t = true) (hall : ∀ u ∈ ts1, p u = false) :
    (ts1 ++ t :: ts2).find? p = some t := by
  induction ts1 with
  | nil => simpa using List.find?_cons_of_pos _ hp
  | cons a l ih =>
    have ha : ¬ p a = true := by simp [hall a (by simp)]
    rw [List.cons_append, List.find?_cons_of_neg _ ha]
    exact ih (fun u hu => hall u (by simp [hu]))

/-- Discovery folded from any accumulator prepends the accumulator. -/
theorem discover_acc (fetch : String → Option (List ToolDesc)) (servers : List ServerCfg) :
    ∀ acc : List ToolDesc,
      servers.foldl (fun a s => a ++ serverContribution fetch s) acc
        = acc ++ discoverTools fetch servers := by
  induction servers with
  | nil => intro acc; simp [discoverTools]
  | cons s rest ih =>
    intro acc
    simp only [discoverTools, List.foldl_cons] at *
    rw [ih (acc ++ serverContribution fetch s), ih ([] ++ serverContribution fetch s)]
    simp

/-- Discovery distributes over appended provider lists. -/
theorem discover_append (fetch : String → Option (List ToolDesc))
    (l1 l2 : List ServerCfg) :
    discoverTools fetch (l1 ++ l2) = discoverTools fetch l1 ++ discoverTools fetch l2 := by
  unfold discoverTools
  rw [List.foldl_append, discover_acc, discover_acc, discover_acc]
  simp

/-- Discovery over a one-provider-then-rest list. -/
theorem discover_cons (fetch : String → Option (List ToolDesc))
    (s : ServerCfg) (rest : List ServerCfg) :
    discoverTools fetch (s :: rest)
      = serverContribution fetch s ++ discoverTools fetch rest := by
  simpa using discover_append fetch [s] rest

/-- The item loop of the product formatter succeeds on any list of dict
items. -/
theorem formatItems_total (items : List JsonVal) : ∀ i : Nat,
    (∀ x ∈ items, isObjB x = true) → ∃ s, formatItems items i = some s := by
  induction items with
  | nil => intro i _; exact ⟨"", rfl⟩
  | cons p rest ih =>
    intro i hobj
    have hp := hobj p (by simp)
    cases p with
    | jobj kvs =>
      obtain ⟨tl, htl⟩ := ih (i + 1) (fun x hx => hobj x (List.mem_cons_of_mem _ hx))
      simp [formatItems, pyGetDefault, pyContains, htl]
    | jnull => simp [isObjB] at hp
    | jbool b => simp [isObjB] at hp
    | jnum n => simp [isObjB] at hp
    | jstr s => simp [isObjB] at hp
    | jarr xs => simp [isObjB] at hp

/-- A string whose characters decompose as `pre ++ t.data` ends with `t`. -/
theorem strEndsWith_of_data (s t : String) (pre : List Char) (h : s.data = pre ++ t.data) :
    strEndsWith s t = true := by
  unfold strEndsWith
  refine List.isSuffixOf_iff_suffix.mpr ?_
  rw [h]
  exact List.suffix_append _ _

/-- The payload the SSE loop returns is the last `Result` event seen,
defaulting to the accumulator it started from. -/
theorem sse_last_result (lines : List String) :
    ∀ (acc : Option JsonVal) (evs : List SseEvent) (fin : Option JsonVal),
      sseDecodeAux lines acc = some (evs, fin) → fin = lastResultD evs acc := by
  induction lines with
  | nil =>
    intro acc evs fin h
    simp only [sseDecodeAux, Option.some.injEq, Prod.mk.injEq] at h
    rw [← h.1, ← h.2]
    rfl
  | cons l ls ih =>
    intro acc evs fin h
    simp only [sseDecodeAux] at h
    split at h
    · split at h
      · obtain ⟨⟨evs2, fin2⟩, h1, h2⟩ := Option.map_eq_some'.mp h
        obtain ⟨he, hf⟩ := Prod.mk.injEq .. ▸ h2
        rw [← he, ← hf]
        simpa [lastResultD] using ih acc evs2 fin2 h1
      · split at h
        · cases h
        · split at h
          · cases h
          · obtain ⟨⟨evs2, fin2⟩, h1, h2⟩ := Option.map_eq_some'.mp h
            obtain ⟨he, hf⟩ := Prod.mk.injEq .. ▸ h2
            rw [← he, ← hf]
            simpa [lastResultD] using ih _ evs2 fin2 h1
        · split at h
          · cases h
          · split at h
            · cases h
            · obtain ⟨⟨evs2, fin2⟩, h1, h2⟩ := Option.map_eq_some'.mp h
              obtain ⟨he, hf⟩ := Prod.mk.injEq .. ▸ h2
              rw [← he, ← hf]
              simpa [lastResultD] using ih acc evs2 fin2 h1
          · exact ih acc evs fin h
    · split at h
      · simp only [Option.some.injEq, Prod.mk.injEq] at h
        rw [← h.1, ← h.2]
        rfl
      · exact ih acc evs fin h

/-! ## Claim theorems -/

set_option maxRecDepth 8192

/-- C1 (counterexample): in src/mcp-host.py the conversation history is the
single `messages_history` attribute of the shared `MCPHost` instance, so
processing one client's `user_message` changes the reply another client
receives: with a completion backend answering with the history length,
client B gets a different reply for `yo` once client A has sent `hi`. -/
theorem c1_counterexample :
    (legacyUserTurn ctNone llmLen ((legacyUserTurn ctNone llmLen [] "hi").1) "yo").2
      ≠ (legacyUserTurn ctNone llmLen [] "yo").2 := by decide

/-- C1 (amended): in the per-connection variant src/host/mcp-host.py,
`message_history` is a local variable of `handle_client`, so running any
interleaving of two clients' frames leaves each client with exactly the
history its own frames produce — one client's `user_message` cannot change
the other's history or the replies derived from it. -/
theorem c1_amended_thm (ct : String → Option String) (llm : String → String)
    (frames : List (Bool × Frame)) : ∀ stA stB : List Msg,
    (runTwo ct llm (stA, stB) frames).1
        = runSession ct llm stA (frames.filterMap (fun p => if p.1 then some p.2 else none))
    ∧ (runTwo ct llm (stA, stB) frames).2
        = runSession ct llm stB (frames.filterMap (fun p => if p.1 then none else some p.2)) := by
  induction frames with
  | nil => intro stA stB; exact ⟨rfl, rfl⟩
  | cons bf rest ih =>
    intro stA stB
    obtain ⟨b, f⟩ := bf
    cases b
    · simpa [runTwo, twoClientStep, runSession] using ih stA (handleFrame ct llm stB f).1
    · simpa [runTwo, twoClientStep, runSession] using ih (handleFrame ct llm stA f).1 stB

/-- C3 (code behavior at the failing input): a tool request that raises
`httpx.TimeoutException` is answered by the connection-error reply, not the
`taking too long` reply, because the exception is in the
`httpx.RequestError` class whose `except` clause comes first
(src/host/mcp-host.py lines 316-326); the dedicated timeout clause is
unreachable. -/
theorem c3_behavior_thm :
    toolErrorReply "get_products" PyExc.timeoutException
      = "I tried to use the get_products tool, but encountered a connection error. Please check if the service is available and try again."
    ∧ isSubstr "taking too long" (toolErrorReply "get_products" PyExc.timeoutException) = false
    ∧ isRequestError PyExc.timeoutException = true
    ∧ isTimeoutException PyExc.timeoutException = true :=
  ⟨rfl, by decide, rfl, rfl⟩

/-- C6: a data line whose JSON fails to parse only contributes a
decode-error event — decoding continues over the remaining lines with the
accumulator unchanged — and on the spec's example stream the decoder yields
the decode-error event, then `Result(1)` from the later valid line, then
the close, returning payload `1`. -/
theorem c6_decode_resilience :
    (∀ (l : String) (ls : List String) (acc : Option JsonVal),
       strStartsWith l "data: " = true → parseJson (strDrop l 6) = none →
       sseDecodeAux (l :: ls) acc
         = (sseDecodeAux ls acc).map (fun p => (SseEvent.decodeError l :: p.1, p.2)))
    ∧ sseDecodeAux ["data: not-json", "", "data: \x7b\"result\": 1\x7d", "", "event: close"] none
        = some ([SseEvent.decodeError "data: not-json", SseEvent.result (.jnum 1),
            SseEvent.close], some (.jnum 1)) := by
  constructor
  · intro l ls acc h1 h2
    simp [sseDecodeAux, h1, h2]
  · rfl

/-- C6 (witness): the malformed-line step rule applied to the line
`data: not-json` ahead of a close line. -/
theorem c6_witness :
    sseDecodeAux ["data: not-json", "event: close"] none
      = (sseDecodeAux ["event: close"] none).map
          (fun p => (SseEvent.decodeError "data: not-json" :: p.1, p.2)) :=
  c6_decode_resilience.1 "data: not-json" ["event: close"] none rfl rfl

/-- C8: the deterministic selector of src/mcp-host.py lines 147-164 picks
the first registry entry named `get_products` for `please show products`
(whose lowered form contains the trigger `show products`) and selects
nothing for the weather utterance, which matches no trigger phrase. -/
theorem c8_deterministic_selection (tools : List JsonVal) (t : JsonVal) :
    (findGetProducts tools = some (some t) →
        selectDeterministic tools "please show products" = some t)
    ∧ selectDeterministic tools weatherUtterance = none := by
  constructor
  · intro h
    have ht : triggersMatch "please show products" = true := by decide
    simp [selectDeterministic, ht, h]
  · have hw : triggersMatch weatherUtterance = false := by decide
    simp [selectDeterministic, hw]

/-- C8 (witness): the selection facts at the concrete one-entry registry
holding the `get_products` dict. -/
theorem c8_witness :
    selectDeterministic toolsGP "please show products" = some gpDict
    ∧ selectDeterministic toolsGP weatherUtterance = none :=
  ⟨(c8_deterministic_selection toolsGP gpDict).1 rfl,
   (c8_deterministic_selection toolsGP gpDict).2⟩

/-- C10: a `user_message` frame whose content strips to the empty string is
skipped by src/host/mcp-host.py lines 143-146: the history is unchanged, no
frame is sent, and neither the tool check nor the completion backend is
called. -/
theorem c10_blank_skip (ct : String → Option String) (llm : String → String)
    (hist : List Msg) (c : String) (hblank : strStrip c = "") :
    handleFrame ct llm hist (.userMessage c) = (hist, [], []) := by
  simp [handleFrame, hblank]

/-- C10 (witness): the whitespace-only content `"   "` is skipped on a
nonempty history. -/
theorem c10_witness :
    handleFrame ctNone llmId hist6 (.userMessage "   ") = (hist6, [], []) :=
  c10_blank_skip ctNone llmId hist6 "   " rfl

/-- C7: the delegated selector (src/host/mcp-host.py lines 249-274) selects
nothing when the stripped, lowered backend response is the literal `none`
or empty; any selected descriptor is a registered one whose lowered name
occurs in the response; when no registered name occurs, nothing is
selected; and the first registered descriptor whose name occurs wins. -/
theorem c7_delegated_selection (tools : List ToolDesc) (resp : String) :
    ((strLower (strStrip resp) = "none" ∨ strLower (strStrip resp) = "") →
        selectDelegated tools resp = none)
    ∧ (∀ t, selectDelegated tools resp = some t →
        t ∈ tools ∧ nameAppears (strLower (strStrip resp)) t = true)
    ∧ ((∀ t ∈ tools, nameAppears (strLower (strStrip resp)) t = false) →
        selectDelegated tools resp = none)
    ∧ (∀ (ts1 : List ToolDesc) (t : ToolDesc) (ts2 : List ToolDesc),
        tools = ts1 ++ t :: ts2 →
        ¬(strLower (strStrip resp) = "none" ∨ strLower (strStrip resp) = "") →
        nameAppears (strLower (strStrip resp)) t = true →
        (∀ u ∈ ts1, nameAppears (strLower (strStrip resp)) u = false) →
        selectDelegated tools resp = some t) := by
  refine ⟨fun h => by simp [selectDelegated, h], ?_, ?_, ?_⟩
  · intro t h
    by_cases hc : strLower (strStrip resp) = "none" ∨ strLower (strStrip resp) = ""
    · simp [selectDelegated, hc] at h
    · rw [selectDelegated, if_neg hc] at h
      exact ⟨List.mem_of_find?_eq_some h, List.find?_some h⟩
  · intro hall
    by_cases hc : strLower (strStrip resp) = "none" ∨ strLower (strStrip resp) = ""
    · simp [selectDelegated, hc]
    · rw [selectDelegated, if_neg hc]
      exact List.find?_eq_none.mpr (fun t ht => by simp [hall t ht])
  · intro ts1 t ts2 heq hne hp hall
    rw [selectDelegated, if_neg hne, heq]
    exact find?_first _ ts1 t ts2 hp hall

/-- C7 (witness): on the one-entry registry, the response
`Use get_products.` selects the product descriptor and the response
` NONE ` selects nothing. -/
theorem c7_witness :
    selectDelegated [prodToolH] "Use get_products." = some prodToolH
    ∧ selectDelegated [prodToolH] " NONE " = none :=
  ⟨(c7_delegated_selection [prodToolH] "Use get_products.").2.2.2 [] prodToolH []
      rfl (by decide) (by decide) (by simp),
   (c7_delegated_selection [prodToolH] " NONE ").1 (Or.inl (by decide))⟩

/-- C9: on the no-tool path of a nonblank user message, the completion
backend receives exactly the role-tagged lines of the last
`min (history length, 5)` messages of the updated history, oldest first
(the window is a suffix of the history, so conversation order is kept),
per src/host/mcp-host.py lines 176-199. -/
theorem c9_prompt_window (ct : String → Option String) (llm : String → String)
    (hist : List Msg) (c : String) (hne : ¬ strStrip c = "")
    (hct : ct (strStrip c) = none) :
    ∃ w : List Msg,
      w <:+ (hist ++ [⟨"user", strStrip c⟩])
      ∧ w.length = min (hist.length + 1) 5
      ∧ (handleFrame ct llm hist (.userMessage c)).2.2
          = [CallRec.toolCheck (strStrip c),
             CallRec.completion (joinLines "\n" (w.map fmtLine))] := by
  refine ⟨(hist ++ [Msg.mk "user" (strStrip c)]).drop ((hist.length + 1) - 5), ?_, ?_, ?_⟩
  · exact List.drop_suffix _ _
  · rw [List.length_drop]
    simp only [List.length_append, List.length_cons, List.length_nil]
    omega
  · simp [handleFrame, hne, hct, formatPrompt]

/-- C9 (witness): with the six-message history and the nonblank message
` hello `, the prompt sent is built from the last five messages. -/
theorem c9_witness :
    ∃ w : List Msg,
      w <:+ (hist6 ++ [⟨"user", strStrip " hello "⟩])
      ∧ w.length = min (hist6.length + 1) 5
      ∧ (handleFrame ctNone llmId hist6 (.userMessage " hello ")).2.2
          = [CallRec.toolCheck (strStrip " hello "),
             CallRec.completion (joinLines "\n" (w.map fmtLine))] :=
  c9_prompt_window ctNone llmId hist6 " hello " (by decide) rfl

/-- C4 (counterexample): two providers whose names both contain `product`
each contribute a `get_products` descriptor and `discover_tools` keeps
both, so the registry does not hold each name at most once. -/
theorem c4_counterexample :
    ¬ countName (discoverTools fetchNone [srvProductA, srvProductB]) "get_products" ≤ 1 := by
  decide

/-- C4 (amended): `discover_tools` concatenates provider contributions in
discovery order without deduplication, and name collisions are resolved
only at lookup time: scanning the registry in insertion order returns the
earliest-discovered descriptor of a name, so a later provider's duplicate
never shadows an earlier one. -/
theorem c4_amended_thm (fetch : String → Option (List ToolDesc))
    (pre : List ServerCfg) (s : ServerCfg) (rest : List ServerCfg)
    (n : String) (t : ToolDesc)
    (hpre : lookupTool (discoverTools fetch pre) n = none)
    (hs : lookupTool (serverContribution fetch s) n = some t) :
    lookupTool (discoverTools fetch (pre ++ s :: rest)) n = some t := by
  rw [lookupTool, discover_append, discover_cons, find?_append_none _ _ hpre]
  exact find?_append_some _ _ hs

/-- C4 (witness): with the two product-named providers, lookup of
`get_products` over the merged registry returns the first provider's
descriptor. -/
theorem c4_witness :
    lookupTool (discoverTools fetchNone ([] ++ srvProductA :: [srvProductB]))
        "get_products" = some prodToolH :=
  c4_amended_thm fetchNone [] srvProductA [srvProductB] "get_products" prodToolH
    rfl (by decide)

/-- C2 (counterexample): on the 12-item list payload the reply does not
contain the string `(Showing 10 of 12)` — the code writes
`(Showing 10 of 12 products)` — and on the empty list payload the code
produces no reply at all (the truthiness guard at line 196 rejects the
empty list before the `No products were found.` branch can run). -/
theorem c2_counterexample :
    isSubstr "(Showing 10 of 12)"
        ((formatToolReply pyRepr (some (.jarr items12))).getD "") = false
    ∧ (formatToolReply pyRepr (some (.jarr items12))).isSome = true
    ∧ formatToolReply pyRepr (some (.jarr [])) = none :=
  ⟨by decide, rfl, rfl⟩

/-- C2 (amended): for a list payload of more than 10 dict items the reply
exists and ends with `(Showing 10 of M products)` where `M` is the item
count; the empty list yields no tool reply (`None`), the handler falling
through to the completion path. -/
theorem c2_amended_thm (dumps : JsonVal → String) (items : List JsonVal)
    (h10 : 10 < items.length) (hobj : ∀ x ∈ items, isObjB x = true) :
    (∃ s, formatToolReply dumps (some (.jarr items)) = some s
        ∧ strEndsWith s ("(Showing 10 of " ++ toString items.length ++ " products)") = true)
    ∧ formatToolReply dumps (some (.jarr [])) = none := by
  constructor
  · obtain ⟨body, hbody⟩ := formatItems_total (items.take 10) 1
      (fun x hx => hobj x (List.mem_of_mem_take hx))
    have htr : truthy (.jarr items) = true := by
      cases items with
      | nil => simp at h10
      | cons a l => simp [truthy]
    refine ⟨productsHeader ++ body ++ "(Showing 10 of " ++ toString items.length ++
        " products)", ?_, ?_⟩
    · simp [formatToolReply, htr, hbody, h10]
    · apply strEndsWith_of_data _ _ ((productsHeader ++ body).data)
      simp [String.data_append, List.append_assoc]
  · rfl

/-- C2 (witness): the amended statement at the 12-item payload. -/
theorem c2_witness :
    (∃ s, formatToolReply pyRepr (some (.jarr items12)) = some s
        ∧ strEndsWith s ("(Showing 10 of " ++ toString items12.length ++ " products)") = true)
    ∧ formatToolReply pyRepr (some (.jarr [])) = none :=
  c2_amended_thm pyRepr items12 (by decide) (by decide)

/-- C5 (counterexample): when the stream closes with no result, the legacy
`check_and_use_tools` returns `None` — there is no ToolUnavailable reply —
and the turn falls through to the completion backend, whose text becomes
the reply the user sees. -/
theorem c5_counterexample :
    checkAndUseTools pyRepr toolsGP 200 ["event: close"] "show products" = none
    ∧ (legacyUserTurn (fun m => checkAndUseTools pyRepr toolsGP 200 ["event: close"] m)
          llmFallback [] "show products").2 = "FALLBACK" :=
  ⟨rfl, rfl⟩

/-- C5 (amended): the payload returned by the SSE loop is the last
`Result` event seen before the close (later results overwrite earlier
ones), and a stream that closes having emitted no result makes the whole
tool path return `None`, so the turn falls through to the completion
backend instead of producing a ToolUnavailable reply. -/
theorem c5_amended_thm :
    (∀ (lines : List String) (acc : Option JsonVal) (evs : List SseEvent)
        (fin : Option JsonVal),
      sseDecodeAux lines acc = some (evs, fin) → fin = lastResultD evs acc)
    ∧ (∀ (dumps : JsonVal → String) (tools : List JsonVal) (status : Nat) (msg : String),
        checkAndUseTools dumps tools status ["event: close"] msg = none) := by
  constructor
  · exact fun lines => sse_last_result lines
  · intro dumps tools status msg
    rw [checkAndUseTools]
    split
    · split
      · rfl
      · rfl
      · split
        · rfl
        · rfl
    · rfl

/-- C5 (witness): a stream emitting `Result(1)` then `Result(2)` returns
payload `2` — the last result seen — and the close-only stream yields no
tool reply on the concrete registry. -/
theorem c5_witness :
    some (JsonVal.jnum 2)
      = lastResultD [SseEvent.result (.jnum 1), SseEvent.result (.jnum 2),
          SseEvent.close] none
    ∧ checkAndUseTools pyRepr toolsGP 200 ["event: close"] "show products" = none :=
  ⟨c5_amended_thm.1
      ["data: \x7b\"result\": 1\x7d", "data: \x7b\"result\": 2\x7d", "event: close"]
      none [SseEvent.result (.jnum 1), SseEvent.result (.jnum 2), SseEvent.close]
      (some (.jnum 2)) rfl,
   c5_amended_thm.2 pyRepr toolsGP 200 "show products"⟩

end McpHost

